import Mathlib

/-!
Shallow embedding of the spaceship.dev MCP server (src/index.ts): the
SpaceshipClient gateway operations and the four protocol request handlers
(list-resources, read-resource, list-tools, call-tool), together with the
fragment of JavaScript value coercion and WHATWG URL parsing that those
handlers rely on.
-/

namespace SpaceshipMCP

/-- JavaScript numbers restricted to the fragment the adapter exercises:
either NaN or an integer value. -/
inductive JsNum
  | nan
  | int (n : Int)
deriving DecidableEq, Repr

/-- JavaScript values as they can appear in a tool-call argument bag. -/
inductive JsValue
  | undefined
  | null
  | boolean (b : Bool)
  | number (x : JsNum)
  | string (s : String)
deriving DecidableEq, Repr

/-- JavaScript String(v) coercion, as applied to tool arguments in the
call-tool handler. -/
def jsToString : JsValue → String
  | .undefined => "undefined"
  | .null => "null"
  | .boolean true => "true"
  | .boolean false => "false"
  | .number .nan => "NaN"
  | .number (.int n) => toString n
  | .string s => s

/-- JavaScript Number(v) coercion (integer fragment: string parsing covers
the decimal-integer literals the adapter's callers can supply; other
strings coerce to NaN exactly as in JS). -/
def toNumber : JsValue → JsNum
  | .undefined => .nan
  | .null => .int 0
  | .boolean b => .int (if b then 1 else 0)
  | .number x => x
  | .string s =>
      if s.trim = "" then .int 0
      else match s.trim.toInt? with
        | some n => .int n
        | none => .nan

/-- JavaScript x || d for numbers: NaN and 0 are falsy and select the
default. -/
def jsOr (x : JsNum) (d : JsNum) : JsNum :=
  match x with
  | .nan => d
  | .int n => if n = 0 then d else .int n

/-- JSON values, the shape of axios response.data and of tool results. -/
inductive Json
  | null
  | bool (b : Bool)
  | num (n : Int)
  | str (s : String)
  | arr (elems : List Json)
  | obj (fields : List (String × Json))

/-- Property access data.key on a parsed JSON object; a missing key yields
the JS undefined, which the adapter never distinguishes from null. -/
def jsonGet (j : Json) (key : String) : Json :=
  match j with
  | .obj fs =>
      match fs.find? (fun kv => kv.1 = key) with
      | some kv => kv.2
      | none => Json.null
  | _ => Json.null

/-- The elements of a JSON array (the handlers only map over arrays the
upstream API documents as arrays). -/
def jsonArray : Json → List Json
  | .arr xs => xs
  | _ => []

/-- JavaScript template-literal display of a JSON field, used when domain
fields are spliced into resource descriptions and URIs. -/
def jsDisplay : Json → String
  | .str s => s
  | .num n => toString n
  | .bool b => cond b "true" "false"
  | .null => "null"
  | .arr _ => ""
  | .obj _ => "[object Object]"

/-- Escape of a single character inside a JSON string literal, as produced
by JSON.stringify (control characters other than the common ones are not
exercised by the adapter's data). -/
def escapeJsonChar (c : Char) : String :=
  if c = '"' then "\\\""
  else if c = '\\' then "\\\\"
  else if c = '\n' then "\\n"
  else if c = '\t' then "\\t"
  else if c = '\r' then "\\r"
  else String.mk [c]

/-- JSON string literal with quotes, as produced by JSON.stringify. -/
def escapeJsonString (s : String) : String :=
  "\"" ++ String.join (s.data.map escapeJsonChar) ++ "\""

/-- JSON.stringify(v, null, 2): pretty-printed JSON with two-space
indentation; the argument ind is the indentation prefix of the enclosing
context (empty at top level). -/
def jsonStringify (ind : String) : Json → String
  | .null => "null"
  | .bool b => cond b "true" "false"
  | .num n => toString n
  | .str s => escapeJsonString s
  | .arr [] => "[]"
  | .arr (x :: xs) =>
      "[\n" ++ String.intercalate ",\n"
        ((x :: xs).attach.map fun v => ind ++ "  " ++ jsonStringify (ind ++ "  ") v.1)
      ++ "\n" ++ ind ++ "]"
  | .obj [] => "\x7b\x7d"
  | .obj (f :: fs) =>
      "\x7b\n" ++ String.intercalate ",\n"
        ((f :: fs).attach.map fun kv =>
          ind ++ "  " ++ escapeJsonString kv.1.1 ++ ": " ++ jsonStringify (ind ++ "  ") kv.1.2)
      ++ "\n" ++ ind ++ "\x7d"
termination_by j => sizeOf j
decreasing_by
  · have := List.sizeOf_lt_of_mem v.2
    simp only [Json.arr.sizeOf_spec]
    omega
  · have := List.sizeOf_lt_of_mem kv.2
    have h2 : sizeOf kv.1.2 < sizeOf kv.1 := by
      obtain ⟨a, b⟩ := kv.1
      simp
    simp only [Json.obj.sizeOf_spec]
    omega

/-- The protocol error codes used by the adapter (ErrorCode from the MCP
SDK, restricted to the four codes the source mentions). -/
inductive ErrorCode
  | invalidParams
  | invalidRequest
  | methodNotFound
  | internalError
deriving DecidableEq, Repr

/-- An exception raised by the transport layer (or any other non-McpError
JavaScript error): whether axios.isAxiosError classifies it as an Axios
error, the optional upstream body diagnostic error.response?.data?.message,
and the error's own .message. -/
structure ThrownError where
  isAxiosError : Bool
  respMessage : Option String
  message : String
deriving DecidableEq, Repr

/-- A JavaScript error as observable at the adapter boundary: either an
McpError with a protocol code, or a raw thrown error. -/
inductive JsError
  | mcpError (code : ErrorCode) (message : String)
  | thrown (e : ThrownError)
deriving DecidableEq, Repr

/-- JavaScript m || fallback on an optional string: undefined and the
empty string are falsy and select the fallback. -/
def jsOrString (m : Option String) (fallback : String) : String :=
  match m with
  | some s => if s = "" then fallback else s
  | none => fallback

/-- An HTTP request issued by the SpaceshipClient through its axios
instance: method, path, query parameters, and JSON body. -/
structure HttpRequest where
  method : String
  path : String
  queryParams : List (String × JsNum)
  body : Json

/-- The transport (the configured axios instance): resolves a request with
the parsed response.data, or rejects with a thrown error. -/
abbrev Transport := HttpRequest → Except ThrownError Json

/-- The catch block repeated verbatim in every SpaceshipClient method: an
error classified by axios.isAxiosError is wrapped into
McpError(InternalError, "Spaceship API error: " + (upstream message ||
error.message)); any other error is rethrown unchanged. -/
def wrapError (e : ThrownError) : JsError :=
  if e.isAxiosError then
    .mcpError .internalError ("Spaceship API error: " ++ jsOrString e.respMessage e.message)
  else .thrown e

/-- The axios request issued by SpaceshipClient.getDomains: GET /domains
with query parameters take and skip. -/
def getDomainsRequest (take skip : JsNum) : HttpRequest :=
  ⟨"GET", "/domains", [("take", take), ("skip", skip)], Json.null⟩

/-- SpaceshipClient.getDomains(take = 10, skip = 0): GET /domains with
params, returning response.data.domains; errors go through the shared
catch block. Callers pass the TypeScript default arguments explicitly. -/
def SpaceshipClient.getDomains (t : Transport) (take skip : JsNum) : Except JsError Json :=
  match t (getDomainsRequest take skip) with
  | .ok data => .ok (jsonGet data "domains")
  | .error e => .error (wrapError e)

/-- SpaceshipClient.checkDomainAvailability(domain): GET
/domains/availability/(domain), returning response.data. -/
def SpaceshipClient.checkDomainAvailability (t : Transport) (domain : String) : Except JsError Json :=
  match t ⟨"GET", "/domains/availability/" ++ domain, [], Json.null⟩ with
  | .ok data => .ok data
  | .error e => .error (wrapError e)

/-- SpaceshipClient.getDomainInfo(domain): GET /domains/(domain),
returning response.data. -/
def SpaceshipClient.getDomainInfo (t : Transport) (domain : String) : Except JsError Json :=
  match t ⟨"GET", "/domains/" ++ domain, [], Json.null⟩ with
  | .ok data => .ok data
  | .error e => .error (wrapError e)

/-- SpaceshipClient.registerDomain(domain, contactId): POST /domains with
a JSON body, returning response.data. -/
def SpaceshipClient.registerDomain (t : Transport) (domain contactId : String) : Except JsError Json :=
  match t ⟨"POST", "/domains", [], Json.obj [("domain", .str domain), ("contactId", .str contactId)]⟩ with
  | .ok data => .ok data
  | .error e => .error (wrapError e)

/-- SpaceshipClient.getDnsRecords(domain): GET /domains/(domain)/dns,
returning response.data.records. -/
def SpaceshipClient.getDnsRecords (t : Transport) (domain : String) : Except JsError Json :=
  match t ⟨"GET", "/domains/" ++ domain ++ "/dns", [], Json.null⟩ with
  | .ok data => .ok (jsonGet data "records")
  | .error e => .error (wrapError e)

/-- SpaceshipClient.updateDnsRecords(domain, records): PUT
/domains/(domain)/dns with the records in the body, returning
response.data. -/
def SpaceshipClient.updateDnsRecords (t : Transport) (domain : String) (records : Json) : Except JsError Json :=
  match t ⟨"PUT", "/domains/" ++ domain ++ "/dns", [], Json.obj [("records", records)]⟩ with
  | .ok data => .ok data
  | .error e => .error (wrapError e)

/-- SpaceshipClient.getContact(contactId): GET /contacts/(contactId),
returning response.data. -/
def SpaceshipClient.getContact (t : Transport) (contactId : String) : Except JsError Json :=
  match t ⟨"GET", "/contacts/" ++ contactId, [], Json.null⟩ with
  | .ok data => .ok data
  | .error e => .error (wrapError e)

/-- SpaceshipClient.getAsyncOperation(operationId): GET
/operations/(operationId), returning response.data. -/
def SpaceshipClient.getAsyncOperation (t : Transport) (operationId : String) : Except JsError Json :=
  match t ⟨"GET", "/operations/" ++ operationId, [], Json.null⟩ with
  | .ok data => .ok data
  | .error e => .error (wrapError e)

/-- Characters that terminate the authority component during WHATWG URL
parsing of a non-special scheme. -/
def badHostChar (c : Char) : Bool := c = '/' || c = '?' || c = '#'

/-- Characters that terminate the path component (start of query or
fragment). -/
def badPathChar (c : Char) : Bool := c = '?' || c = '#'

/-- The two URL components the read-resource handler consumes. -/
structure URLParts where
  protocol : String
  pathname : String
deriving DecidableEq, Repr

/-- Characters allowed in a URL scheme. -/
def isSchemeChar (c : Char) : Bool := c.isAlphanum || c = '+' || c = '-' || c = '.'

/-- Modelled fragment of the WHATWG URL parser invoked by new URL(uri) in
the read-resource handler: computes url.protocol and url.pathname of an
absolute URI. After the scheme, a leading "//" introduces an authority
running to the first "/", "?" or "#"; the pathname is what remains before
any query or fragment. A string without a valid scheme fails to parse
(new URL throws a TypeError). Userinfo/port splitting and percent-encoding
do not affect the pathname and are not modelled. -/
def parseURL (uri : String) : Option URLParts :=
  let cs := uri.data
  let scheme := cs.takeWhile isSchemeChar
  let rest := cs.dropWhile isSchemeChar
  match scheme, rest with
  | c0 :: _, ':' :: r =>
      if c0.isAlpha then
        match r with
        | '/' :: '/' :: r2 =>
            some ⟨String.mk (scheme ++ [':']),
                  String.mk ((r2.dropWhile fun c => !badHostChar c).takeWhile fun c => !badPathChar c)⟩
        | _ =>
            some ⟨String.mk (scheme ++ [':']),
                  String.mk (r.takeWhile fun c => !badPathChar c)⟩
      else none
  | _, _ => none

/-- JavaScript String.prototype.split("/") on a character list. -/
def splitOnSlash : List Char → List (List Char)
  | [] => [[]]
  | c :: cs =>
      if c = '/' then [] :: splitOnSlash cs
      else
        match splitOnSlash cs with
        | [] => [[c]]
        | h :: t => (c :: h) :: t

/-- url.pathname.split("/").filter(Boolean) from the read-resource
handler: path segments with the empty ones removed. -/
def splitPath (pathname : String) : List String :=
  ((splitOnSlash pathname.data).filter fun l => !l.isEmpty).map String.mk

/-- A call into the RegistryGateway (SpaceshipClient) as observed at the
adapter boundary, carrying the exact arguments the adapter passes. -/
inductive GatewayCall
  | getDomains (take skip : JsNum)
  | checkDomainAvailability (domain : String)
  | getDomainInfo (domain : String)
  | registerDomain (domain contactId : String)
  | getDnsRecords (domain : String)
  | getContact (contactId : String)
  | getAsyncOperation (operationId : String)
deriving DecidableEq, Repr

/-- The gateway as the adapter sees it: each call either resolves with a
parsed JSON result or rejects with a JavaScript error. -/
abbrev Gateway := GatewayCall → Except JsError Json

/-- A resource descriptor as returned by the list-resources handler. -/
structure ResourceDescriptor where
  uri : String
  mimeType : String
  name : String
  description : String
deriving DecidableEq, Repr

/-- The list-resources handler: calls getDomains() with the TypeScript
default pagination (take 10, skip 0) and projects each domain into a
descriptor; on any error it logs and returns an empty resource list. The
second component records the gateway calls made. -/
def listResources (gw : Gateway) : List ResourceDescriptor × List GatewayCall :=
  match gw (.getDomains (.int 10) (.int 0)) with
  | .ok domainsJson =>
      ((jsonArray domainsJson).map fun d =>
        { uri := "spaceship://domains/" ++ jsDisplay (jsonGet d "name")
          mimeType := "application/json"
          name := jsDisplay (jsonGet d "name")
          description := "Domain: " ++ jsDisplay (jsonGet d "name") ++ " (Status: "
            ++ jsDisplay (jsonGet d "status") ++ ", Expires: "
            ++ jsDisplay (jsonGet d "expiresAt") ++ ")" },
       [.getDomains (.int 10) (.int 0)])
  | .error _ => ([], [.getDomains (.int 10) (.int 0)])

/-- One content block of a read-resource response. -/
structure ResourceContent where
  uri : String
  mimeType : String
  text : String
deriving Repr

/-- The read-resource handler: new URL(uri) (a parse failure propagates
the parser's TypeError); if the protocol is "spaceship:" and the first
nonempty path segment is "domains", call getDomainInfo on the second
segment (JavaScript stringifies an absent second segment to "undefined"
at every use site) and wrap the result as a single JSON text content
block; on gateway failure throw McpError(InvalidRequest, "Domain (name)
not found"); otherwise throw McpError(InvalidRequest, "Unsupported
resource URI: (uri)"). The second component records the gateway calls. -/
def readResource (gw : Gateway) (uri : String) :
    Except JsError (List ResourceContent) × List GatewayCall :=
  match parseURL uri with
  | none => (.error (.thrown ⟨false, none, "Invalid URL"⟩), [])
  | some u =>
      if u.protocol = "spaceship:" then
        let pathParts := splitPath u.pathname
        if pathParts.head? = some "domains" then
          let domainName := (pathParts.get? 1).getD "undefined"
          match gw (.getDomainInfo domainName) with
          | .ok info =>
              (.ok [⟨uri, "application/json", jsonStringify "" info⟩],
               [.getDomainInfo domainName])
          | .error _ =>
              (.error (.mcpError .invalidRequest ("Domain " ++ domainName ++ " not found")),
               [.getDomainInfo domainName])
        else
          (.error (.mcpError .invalidRequest ("Unsupported resource URI: " ++ uri)), [])
      else
        (.error (.mcpError .invalidRequest ("Unsupported resource URI: " ++ uri)), [])

/-- One content block of a call-tool response; the type field is always
"text" in this adapter. -/
structure ToolContent where
  type : String
  text : String
deriving DecidableEq, Repr

/-- The loosely typed argument bag of a call-tool request
(request.params.arguments, possibly absent). -/
abbrev ArgBag := List (String × JsValue)

/-- request.params.arguments?.key: undefined when the bag is absent or the
key is missing. -/
def argGet (args : Option ArgBag) (key : String) : JsValue :=
  match args with
  | none => .undefined
  | some l =>
      match l.find? (fun kv => kv.1 = key) with
      | some kv => kv.2
      | none => .undefined

/-- The call-tool handler: switch on the tool name; coerce arguments with
Number(...) / String(...); required-argument checks test the coerced
string for emptiness; success wraps the gateway result as one JSON text
content block; a gateway error is logged and rethrown unchanged; an
unknown name throws McpError(MethodNotFound, "Unknown tool: (name)"). The
second component records the gateway calls made. -/
def callTool (gw : Gateway) (name : String) (args : Option ArgBag) :
    Except JsError (List ToolContent) × List GatewayCall :=
  if name = "get_domains" then
    let take := jsOr (toNumber (argGet args "take")) (.int 10)
    let skip := jsOr (toNumber (argGet args "skip")) (.int 0)
    match gw (.getDomains take skip) with
    | .ok j => (.ok [⟨"text", jsonStringify "" j⟩], [.getDomains take skip])
    | .error e => (.error e, [.getDomains take skip])
  else if name = "check_domain_availability" then
    let domain := jsToString (argGet args "domain")
    if domain = "" then
      (.error (.mcpError .invalidParams "Domain name is required"), [])
    else
      match gw (.checkDomainAvailability domain) with
      | .ok j => (.ok [⟨"text", jsonStringify "" j⟩], [.checkDomainAvailability domain])
      | .error e => (.error e, [.checkDomainAvailability domain])
  else if name = "get_domain_info" then
    let domain := jsToString (argGet args "domain")
    if domain = "" then
      (.error (.mcpError .invalidParams "Domain name is required"), [])
    else
      match gw (.getDomainInfo domain) with
      | .ok j => (.ok [⟨"text", jsonStringify "" j⟩], [.getDomainInfo domain])
      | .error e => (.error e, [.getDomainInfo domain])
  else if name = "register_domain" then
    let domain := jsToString (argGet args "domain")
    let contactId := jsToString (argGet args "contactId")
    if domain = "" || contactId = "" then
      (.error (.mcpError .invalidParams "Domain name and contact ID are required"), [])
    else
      match gw (.registerDomain domain contactId) with
      | .ok j => (.ok [⟨"text", jsonStringify "" j⟩], [.registerDomain domain contactId])
      | .error e => (.error e, [.registerDomain domain contactId])
  else if name = "get_dns_records" then
    let domain := jsToString (argGet args "domain")
    if domain = "" then
      (.error (.mcpError .invalidParams "Domain name is required"), [])
    else
      match gw (.getDnsRecords domain) with
      | .ok j => (.ok [⟨"text", jsonStringify "" j⟩], [.getDnsRecords domain])
      | .error e => (.error e, [.getDnsRecords domain])
  else if name = "get_contact" then
    let contactId := jsToString (argGet args "contactId")
    if contactId = "" then
      (.error (.mcpError .invalidParams "Contact ID is required"), [])
    else
      match gw (.getContact contactId) with
      | .ok j => (.ok [⟨"text", jsonStringify "" j⟩], [.getContact contactId])
      | .error e => (.error e, [.getContact contactId])
  else if name = "get_async_operation" then
    let operationId := jsToString (argGet args "operationId")
    if operationId = "" then
      (.error (.mcpError .invalidParams "Operation ID is required"), [])
    else
      match gw (.getAsyncOperation operationId) with
      | .ok j => (.ok [⟨"text", jsonStringify "" j⟩], [.getAsyncOperation operationId])
      | .error e => (.error e, [.getAsyncOperation operationId])
  else
    (.error (.mcpError .methodNotFound ("Unknown tool: " ++ name)), [])

/-- One property of a tool's JSON input schema. -/
structure PropertySchema where
  name : String
  type : String
  description : String
deriving DecidableEq, Repr

/-- A tool's JSON input schema: object type, declared properties, and the
required-property names (absent in the source for get_domains, i.e. the
empty list). -/
structure InputSchema where
  type : String
  properties : List PropertySchema
  required : List String
deriving DecidableEq, Repr

/-- A tool descriptor from the list-tools catalog. -/
structure ToolDescriptor where
  name : String
  description : String
  inputSchema : InputSchema
deriving DecidableEq, Repr

/-- The list-tools handler: the fixed catalog of seven tool descriptors,
transcribed from the source in order. -/
def listTools : List ToolDescriptor :=
  [ { name := "get_domains"
      description := "Get a list of domains"
      inputSchema :=
        { type := "object"
          properties :=
            [ ⟨"take", "number", "Number of domains to retrieve (default: 10)"⟩,
              ⟨"skip", "number", "Number of domains to skip (default: 0)"⟩ ]
          required := [] } },
    { name := "check_domain_availability"
      description := "Check if a domain is available for registration"
      inputSchema :=
        { type := "object"
          properties := [⟨"domain", "string", "Domain name to check"⟩]
          required := ["domain"] } },
    { name := "get_domain_info"
      description := "Get information about a domain"
      inputSchema :=
        { type := "object"
          properties := [⟨"domain", "string", "Domain name"⟩]
          required := ["domain"] } },
    { name := "register_domain"
      description := "Register a new domain"
      inputSchema :=
        { type := "object"
          properties :=
            [ ⟨"domain", "string", "Domain name to register"⟩,
              ⟨"contactId", "string", "Contact ID to use for registration"⟩ ]
          required := ["domain", "contactId"] } },
    { name := "get_dns_records"
      description := "Get DNS records for a domain"
      inputSchema :=
        { type := "object"
          properties := [⟨"domain", "string", "Domain name"⟩]
          required := ["domain"] } },
    { name := "get_contact"
      description := "Get contact information"
      inputSchema :=
        { type := "object"
          properties := [⟨"contactId", "string", "Contact ID"⟩]
          required := ["contactId"] } },
    { name := "get_async_operation"
      description := "Get status of an asynchronous operation"
      inputSchema :=
        { type := "object"
          properties := [⟨"operationId", "string", "Operation ID"⟩]
          required := ["operationId"] } } ]

/-- A gateway stub that resolves every call with an empty JSON object. -/
def stubGwOk : Gateway := fun _ => Except.ok (Json.obj [])

/-- The Domain value from the specification's round-trip property. -/
def exampleDomainJson : Json :=
  .obj [ ("id", .str "d1"), ("name", .str "example.com"),
         ("status", .str "active"), ("expiresAt", .str "2026-01-01"),
         ("autoRenew", .bool true) ]

/-- A gateway stub that answers every getDomainInfo call with the
round-trip example domain and every other call with a one-element domain
list. -/
def gwExample : Gateway := fun c =>
  match c with
  | .getDomainInfo _ => .ok exampleDomainJson
  | _ => .ok (Json.arr [exampleDomainJson])

section ListLemmas

theorem takeWhile_append_all (p : Char → Bool) (xs ys : List Char)
    (h : ∀ x ∈ xs, p x = true) :
    (xs ++ ys).takeWhile p = xs ++ ys.takeWhile p := by
  induction xs with
  | nil => simp
  | cons a l ih =>
      simp only [List.cons_append, List.takeWhile_cons, h a (List.mem_cons_self a l)]
      simp [ih fun x hx => h x (List.mem_cons_of_mem a hx)]

theorem dropWhile_append_all (p : Char → Bool) (xs ys : List Char)
    (h : ∀ x ∈ xs, p x = true) :
    (xs ++ ys).dropWhile p = ys.dropWhile p := by
  induction xs with
  | nil => simp
  | cons a l ih =>
      simp only [List.cons_append, List.dropWhile_cons, h a (List.mem_cons_self a l)]
      simp [ih fun x hx => h x (List.mem_cons_of_mem a hx)]

theorem takeWhile_all (p : Char → Bool) (xs : List Char)
    (h : ∀ x ∈ xs, p x = true) : xs.takeWhile p = xs := by
  induction xs with
  | nil => rfl
  | cons a l ih =>
      simp only [List.takeWhile_cons, h a (List.mem_cons_self a l)]
      simp [ih fun x hx => h x (List.mem_cons_of_mem a hx)]

theorem splitOnSlash_ne_nil (xs : List Char) : splitOnSlash xs ≠ [] := by
  cases xs with
  | nil => simp [splitOnSlash]
  | cons c cs =>
      simp only [splitOnSlash]
      split
      · simp
      · split <;> simp

theorem splitOnSlash_no_slash (xs : List Char) (h : '/' ∉ xs) :
    splitOnSlash xs = [xs] := by
  induction xs with
  | nil => rfl
  | cons a l ih =>
      have ha : a ≠ '/' := fun hh => h (hh ▸ List.mem_cons_self a l)
      simp only [splitOnSlash, if_neg ha]
      rw [ih fun hx => h (List.mem_cons_of_mem a hx)]

theorem splitOnSlash_append (xs ys : List Char) (h : '/' ∉ xs) :
    splitOnSlash (xs ++ '/' :: ys) = xs :: splitOnSlash ys := by
  induction xs with
  | nil => simp [splitOnSlash]
  | cons a l ih =>
      have ha : a ≠ '/' := fun hh => h (hh ▸ List.mem_cons_self a l)
      simp only [List.cons_append, splitOnSlash, if_neg ha, List.append_eq]
      rw [ih fun hx => h (List.mem_cons_of_mem a hx)]

end ListLemmas

/-- A character acceptable in an opaque authority is also acceptable in a
path. -/
theorem badPath_of_badHost (c : Char) (h : badHostChar c = false) :
    badPathChar c = false := by
  simp only [badHostChar, Bool.or_eq_false_iff] at h
  simp [badPathChar, h.1.2, h.2]

/-- Parsing a spaceship URI with an explicit authority: the authority is
consumed as the host and the pathname starts at /domains. -/
theorem parseURL_spaceship_host (host name : String)
    (hh : ∀ c ∈ host.data, badHostChar c = false)
    (hn : ∀ c ∈ name.data, badHostChar c = false) :
    parseURL ("spaceship://" ++ host ++ "/domains/" ++ name)
      = some ⟨"spaceship:", "/domains/" ++ name⟩ := by
  have hdata : ("spaceship://" ++ host ++ "/domains/" ++ name).data
      = "spaceship".data ++ ':' :: '/' :: '/' ::
          (host.data ++ '/' :: ("domains".data ++ '/' :: name.data)) := by
    simp only [String.data_append, List.append_assoc]
    rfl
  have hsch : ∀ c ∈ "spaceship".data, isSchemeChar c = true := by decide
  have hhost : ∀ c ∈ host.data, (!badHostChar c) = true := by
    intro c hc; simp [hh c hc]
  have hdom : ∀ c ∈ (['d', 'o', 'm', 'a', 'i', 'n', 's'] : List Char), (!badPathChar c) = true := by
    decide
  have hpath : ∀ c ∈ '/' :: (['d', 'o', 'm', 'a', 'i', 'n', 's'] ++ '/' :: name.data),
      (!badPathChar c) = true := by
    intro c hc
    rcases List.mem_cons.1 hc with h1 | h1
    · subst h1; decide
    rcases List.mem_append.1 h1 with h2 | h2
    · exact hdom c h2
    rcases List.mem_cons.1 h2 with h3 | h3
    · subst h3; decide
    · simp [badPath_of_badHost c (hn c h3)]
  have hc1 : isSchemeChar ':' = false := rfl
  have hc2 : ('s').isAlpha = true := rfl
  have hc3 : badHostChar '/' = true := rfl
  unfold parseURL
  simp only [hdata, takeWhile_append_all _ _ _ hsch, dropWhile_append_all _ _ _ hsch,
    List.takeWhile_cons, List.dropWhile_cons, hc1, Bool.false_eq_true, if_false,
    List.append_nil]
  simp only [hc2, if_true]
  rw [dropWhile_append_all _ _ _ hhost]
  rw [List.dropWhile_cons]
  simp only [hc3, Bool.not_true, Bool.false_eq_true, if_false]
  rw [takeWhile_all _ _ hpath]
  simp only [Option.some.injEq, URLParts.mk.injEq]
  constructor
  · rfl
  · refine String.ext ?_
    simp only [String.data_append]
    rfl

/-- Splitting the pathname /domains/(name) into its nonempty segments. -/
theorem splitPath_domains (name : String) (h0 : name.data ≠ [])
    (h1 : '/' ∉ name.data) :
    splitPath ("/domains/" ++ name) = ["domains", name] := by
  have hdata : ("/domains/" ++ name).data
      = '/' :: (['d', 'o', 'm', 'a', 'i', 'n', 's'] ++ '/' :: name.data) := by
    simp only [String.data_append]
    rfl
  have hne : name.data.isEmpty = false := by
    cases hcase : name.data with
    | nil => exact absurd hcase h0
    | cons a l => rfl
  unfold splitPath
  rw [hdata]
  have hstep : splitOnSlash ('/' :: (['d', 'o', 'm', 'a', 'i', 'n', 's'] ++ '/' :: name.data))
      = [] :: splitOnSlash (['d', 'o', 'm', 'a', 'i', 'n', 's'] ++ '/' :: name.data) := by
    simp [splitOnSlash]
  rw [hstep, splitOnSlash_append _ _ (by decide), splitOnSlash_no_slash _ h1]
  simp only [List.filter_cons, List.filter_nil, hne, List.isEmpty_nil, List.isEmpty_cons,
    Bool.not_true, Bool.not_false, List.map_cons, List.map_nil]
  rfl

/-- Whether a gateway result failed with an InternalError-class McpError,
i.e. an UpstreamError in the specification's taxonomy. -/
def isUpstreamError : Except JsError Json → Bool
  | .error (.mcpError .internalError _) => true
  | _ => false

/-- A gateway stub whose every call fails with a fixed InternalError. -/
def gwDown : Gateway := fun _ =>
  .error (.mcpError .internalError "Spaceship API error: connection refused")

/-- A transport whose every request rejects with an error that
axios.isAxiosError does not classify as an Axios error. -/
def nonAxiosFailingTransport : Transport := fun _ =>
  .error ⟨false, none, "socket hang up"⟩

/-- A transport whose every request rejects with an Axios-classified error
carrying an upstream body diagnostic. -/
def axiosFailingTransport : Transport := fun _ =>
  .error ⟨true, some "Domain quota exceeded", "Request failed with status code 429"⟩

/-- The literal resource URI form stated by the specification (the scheme
literal followed by domains and a single path segment), written from the
spec's words for comparison with the implementation's accepted set. -/
def specResourceUriForm (uri : String) : Bool :=
  let pre := "spaceship://domains/".data
  let rest := uri.data.drop pre.length
  (uri.data.take pre.length == pre) && !rest.isEmpty && !rest.contains '/'

/-- The gateway call trace of a get_domains tool call: exactly one
listDomains invocation with the coerced-or-defaulted pagination values. -/
theorem callTool_get_domains_trace (gw : Gateway) (args : Option ArgBag) :
    (callTool gw "get_domains" args).2
      = [GatewayCall.getDomains (jsOr (toNumber (argGet args "take")) (.int 10))
          (jsOr (toNumber (argGet args "skip")) (.int 0))] := by
  cases hres : gw (.getDomains (jsOr (toNumber (argGet args "take")) (.int 10))
      (jsOr (toNumber (argGet args "skip")) (.int 0))) <;>
    simp [callTool, hres]

/-- The result of a get_domains tool call is the gateway result, with a
success wrapped as a single text content block and an error rethrown
unchanged. -/
theorem callTool_get_domains_result (gw : Gateway) (args : Option ArgBag) :
    (callTool gw "get_domains" args).1
      = match gw (.getDomains (jsOr (toNumber (argGet args "take")) (.int 10))
            (jsOr (toNumber (argGet args "skip")) (.int 0))) with
        | .ok j => .ok [⟨"text", jsonStringify "" j⟩]
        | .error e => .error e := by
  cases hres : gw (.getDomains (jsOr (toNumber (argGet args "take")) (.int 10))
      (jsOr (toNumber (argGet args "skip")) (.int 0))) <;>
    simp [callTool, hres]

/-- The JavaScript numeric default x || d leaves a nonzero integer alone
and a zero selects the default. -/
theorem jsOr_int_zero_default (m : Int) : jsOr (.int m) (.int 0) = .int m := by
  show (if m = 0 then JsNum.int 0 else JsNum.int m) = JsNum.int m
  by_cases h : m = 0
  · rw [if_pos h, h]
  · rw [if_neg h]

/-- C1: the claim fails on the code. A call-tool request for a recognized
tool that OMITS a declared-required argument is not rejected: String(...)
coerces the absent value to the non-empty string "undefined", the
emptiness check passes, and the gateway is invoked with that string. Only
an explicitly supplied empty string is rejected with InvalidParams before
any upstream call. -/
theorem c1_missing_argument_reaches_gateway :
    (callTool stubGwOk "check_domain_availability" (some [])).2
      = [GatewayCall.checkDomainAvailability "undefined"]
    ∧ (callTool stubGwOk "register_domain" (some [])).2
      = [GatewayCall.registerDomain "undefined" "undefined"]
    ∧ (callTool stubGwOk "check_domain_availability" (some [("domain", JsValue.string "")]))
      = (.error (.mcpError .invalidParams "Domain name is required"), []) :=
  ⟨rfl, rfl, rfl⟩

/-- C2: the claim fails on the code. Reading the adapter's own minted URI
spaceship://domains/example.com fails with InvalidRequest "Unsupported
resource URI" and performs no gateway call, even though the gateway would
return the example Domain: the WHATWG URL parser puts "domains" into the
authority, so the pathname is "/example.com" and its first segment is not
"domains". -/
theorem c2_round_trip_fails :
    readResource gwExample "spaceship://domains/example.com"
      = (.error (.mcpError .invalidRequest
          "Unsupported resource URI: spaceship://domains/example.com"), [])
    ∧ gwExample (.getDomainInfo "example.com") = .ok exampleDomainJson :=
  ⟨rfl, rfl⟩

/-- C3: when the gateway fails during listDomains with an InternalError
McpError, list-resources returns an empty resource set and propagates no
error, while a get_domains tool call propagates the same InternalError
with the gateway's message unchanged. -/
theorem c3_listing_failure_policy (gw : Gateway) (msg : String)
    (h : ∀ take skip, gw (.getDomains take skip)
      = .error (.mcpError .internalError msg)) :
    (listResources gw).1 = []
    ∧ ∀ args, (callTool gw "get_domains" args).1
        = .error (.mcpError .internalError msg) := by
  constructor
  · unfold listResources
    rw [h]
  · intro args
    rw [callTool_get_domains_result, h]

/-- C3 witness at a concrete failing gateway and a concrete tool call. -/
theorem c3_listing_failure_policy_witness :
    (listResources gwDown).1 = []
    ∧ (callTool gwDown "get_domains" (some [])).1
        = .error (.mcpError .internalError "Spaceship API error: connection refused") :=
  ⟨(c3_listing_failure_policy gwDown _ (fun _ _ => rfl)).1,
   (c3_listing_failure_policy gwDown _ (fun _ _ => rfl)).2 (some [])⟩

/-- C4 counterexample: a supplied take of 0 (a non-negative integer) is
not forwarded unmodified; the JavaScript || default replaces it with
10. -/
theorem c4_take_zero_not_forwarded :
    (callTool stubGwOk "get_domains"
        (some [("take", .number (.int 0)), ("skip", .number (.int 0))])).2
      = [GatewayCall.getDomains (.int 10) (.int 0)]
    ∧ (callTool stubGwOk "get_domains"
        (some [("take", .number (.int 0)), ("skip", .number (.int 0))])).2
      ≠ [GatewayCall.getDomains (.int 0) (.int 0)] :=
  ⟨rfl, by decide⟩

/-- C4 as amended: for every positive integer take and non-negative
integer skip the adapter forwards exactly those values as the take and
skip query parameters of the upstream listDomains request; an omitted
take defaults to 10 and an omitted skip to 0 (a supplied take of 0 is
also replaced by the default 10, and a supplied skip of 0 forwards as
0). -/
theorem c4_amended_forwarding (t s : Nat) (ht : 1 ≤ t) (gw : Gateway) :
    (callTool gw "get_domains"
        (some [("take", .number (.int t)), ("skip", .number (.int s))])).2
      = [GatewayCall.getDomains (.int t) (.int s)]
    ∧ (getDomainsRequest (.int t) (.int s)).queryParams
        = [("take", JsNum.int t), ("skip", JsNum.int s)]
    ∧ (callTool gw "get_domains" none).2 = [GatewayCall.getDomains (.int 10) (.int 0)] := by
  have htz : ((t : Int)) ≠ 0 := by
    exact_mod_cast Nat.one_le_iff_ne_zero.mp ht
  refine ⟨?_, rfl, ?_⟩
  · rw [callTool_get_domains_trace]
    have e1 : toNumber (argGet (some [("take", JsValue.number (.int t)),
        ("skip", JsValue.number (.int s))]) "take") = .int t := rfl
    have e2 : toNumber (argGet (some [("take", JsValue.number (.int t)),
        ("skip", JsValue.number (.int s))]) "skip") = .int s := rfl
    have hjs : jsOr (.int (t : Int)) (.int 10) = .int (t : Int) := by
      show (if (t : Int) = 0 then JsNum.int 10 else JsNum.int (t : Int)) = JsNum.int (t : Int)
      rw [if_neg htz]
    rw [e1, e2, jsOr_int_zero_default, hjs]
  · rw [callTool_get_domains_trace]
    rfl

/-- C4 witness at take 2, skip 3 and the defaults. -/
theorem c4_amended_forwarding_witness :
    (callTool stubGwOk "get_domains"
        (some [("take", .number (.int 2)), ("skip", .number (.int 3))])).2
      = [GatewayCall.getDomains (.int 2) (.int 3)]
    ∧ (getDomainsRequest (.int 2) (.int 3)).queryParams
        = [("take", JsNum.int 2), ("skip", JsNum.int 3)]
    ∧ (callTool stubGwOk "get_domains" none).2 = [GatewayCall.getDomains (.int 10) (.int 0)] :=
  c4_amended_forwarding 2 3 (by decide) stubGwOk

/-- C5 counterexample: an exception the transport raises that
axios.isAxiosError does not classify as an Axios error is rethrown
unchanged by the gateway, so an error that is not an UpstreamError
escapes the gateway component. -/
theorem c5_non_axios_error_escapes :
    SpaceshipClient.getDomains nonAxiosFailingTransport (.int 10) (.int 0)
      = .error (.thrown ⟨false, none, "socket hang up"⟩)
    ∧ isUpstreamError
        (SpaceshipClient.getDomains nonAxiosFailingTransport (.int 10) (.int 0)) = false :=
  ⟨rfl, rfl⟩

/-- C5 as amended: for every transport exception classified as an Axios
error, each of the eight gateway operations raises an InternalError-class
McpError whose message is "Spaceship API error: " followed by the
upstream-supplied diagnostic when present and non-empty, else the
transport's own message; an exception not so classified is rethrown
unchanged. -/
theorem c5_amended_axios_wrapping (t : Transport) (e : ThrownError)
    (he : e.isAxiosError = true) (ht : ∀ r, t r = .error e)
    (take skip : JsNum) (domain contactId operationId : String) (records : Json) :
    SpaceshipClient.getDomains t take skip
        = .error (.mcpError .internalError
            ("Spaceship API error: " ++ jsOrString e.respMessage e.message))
    ∧ SpaceshipClient.checkDomainAvailability t domain
        = .error (.mcpError .internalError
            ("Spaceship API error: " ++ jsOrString e.respMessage e.message))
    ∧ SpaceshipClient.getDomainInfo t domain
        = .error (.mcpError .internalError
            ("Spaceship API error: " ++ jsOrString e.respMessage e.message))
    ∧ SpaceshipClient.registerDomain t domain contactId
        = .error (.mcpError .internalError
            ("Spaceship API error: " ++ jsOrString e.respMessage e.message))
    ∧ SpaceshipClient.getDnsRecords t domain
        = .error (.mcpError .internalError
            ("Spaceship API error: " ++ jsOrString e.respMessage e.message))
    ∧ SpaceshipClient.updateDnsRecords t domain records
        = .error (.mcpError .internalError
            ("Spaceship API error: " ++ jsOrString e.respMessage e.message))
    ∧ SpaceshipClient.getContact t contactId
        = .error (.mcpError .internalError
            ("Spaceship API error: " ++ jsOrString e.respMessage e.message))
    ∧ SpaceshipClient.getAsyncOperation t operationId
        = .error (.mcpError .internalError
            ("Spaceship API error: " ++ jsOrString e.respMessage e.message)) := by
  have hw : wrapError e = .mcpError .internalError
      ("Spaceship API error: " ++ jsOrString e.respMessage e.message) := by
    unfold wrapError
    rw [if_pos he]
  refine ⟨?_, ?_, ?_, ?_, ?_, ?_, ?_, ?_⟩ <;>
    simp only [SpaceshipClient.getDomains, SpaceshipClient.checkDomainAvailability,
      SpaceshipClient.getDomainInfo, SpaceshipClient.registerDomain,
      SpaceshipClient.getDnsRecords, SpaceshipClient.updateDnsRecords,
      SpaceshipClient.getContact, SpaceshipClient.getAsyncOperation, ht, hw]

/-- C5 witness at a concrete Axios-classified failure with an upstream
diagnostic. -/
theorem c5_amended_axios_wrapping_witness :
    SpaceshipClient.getDomains axiosFailingTransport (.int 10) (.int 0)
        = .error (.mcpError .internalError "Spaceship API error: Domain quota exceeded")
    ∧ SpaceshipClient.checkDomainAvailability axiosFailingTransport "example.com"
        = .error (.mcpError .internalError "Spaceship API error: Domain quota exceeded")
    ∧ SpaceshipClient.getDomainInfo axiosFailingTransport "example.com"
        = .error (.mcpError .internalError "Spaceship API error: Domain quota exceeded")
    ∧ SpaceshipClient.registerDomain axiosFailingTransport "example.com" "c1"
        = .error (.mcpError .internalError "Spaceship API error: Domain quota exceeded")
    ∧ SpaceshipClient.getDnsRecords axiosFailingTransport "example.com"
        = .error (.mcpError .internalError "Spaceship API error: Domain quota exceeded")
    ∧ SpaceshipClient.updateDnsRecords axiosFailingTransport "example.com" Json.null
        = .error (.mcpError .internalError "Spaceship API error: Domain quota exceeded")
    ∧ SpaceshipClient.getContact axiosFailingTransport "c1"
        = .error (.mcpError .internalError "Spaceship API error: Domain quota exceeded")
    ∧ SpaceshipClient.getAsyncOperation axiosFailingTransport "op1"
        = .error (.mcpError .internalError "Spaceship API error: Domain quota exceeded") :=
  c5_amended_axios_wrapping axiosFailingTransport
    ⟨true, some "Domain quota exceeded", "Request failed with status code 429"⟩
    rfl (fun _ => rfl) (.int 10) (.int 0) "example.com" "c1" "op1" Json.null

/-- C6 counterexample: the URI spaceship://ignored/domains/example.com
does not match the claimed literal form scheme://domains/(name), yet
read-resource accepts it and returns the domain instead of failing with
InvalidRequest. -/
theorem c6_nonmatching_uri_accepted :
    specResourceUriForm "spaceship://ignored/domains/example.com" = false
    ∧ (readResource gwExample "spaceship://ignored/domains/example.com").1
        = .ok [⟨"spaceship://ignored/domains/example.com", "application/json",
                jsonStringify "" exampleDomainJson⟩] :=
  ⟨rfl, rfl⟩

/-- C6 as amended: for every read-resource request whose URI parses under
the WHATWG rules but whose parse does not yield the spaceship scheme
together with "domains" as the first nonempty path segment, dispatch
fails with an InvalidRequest-class error naming the unsupported URI and
performs no gateway call. (URIs that fail to parse raise the URL
constructor's TypeError instead, and URIs whose parse does yield that
shape — which, per the parser, are those with an authority before
/domains/(name) — are accepted.) -/
theorem c6_amended_unsupported_uri (uri : String) (u : URLParts) (gw : Gateway)
    (hp : parseURL uri = some u)
    (hbad : u.protocol ≠ "spaceship:" ∨ (splitPath u.pathname).head? ≠ some "domains") :
    readResource gw uri
      = (.error (.mcpError .invalidRequest ("Unsupported resource URI: " ++ uri)), []) := by
  unfold readResource
  rw [hp]
  by_cases hpr : u.protocol = "spaceship:"
  · rcases hbad with hb | hb
    · exact absurd hpr hb
    · simp only [if_pos hpr, if_neg hb]
  · simp only [if_neg hpr]

/-- C6 witness at a concrete foreign-scheme URI. -/
theorem c6_amended_unsupported_uri_witness :
    readResource stubGwOk "foo://bar/baz"
      = (.error (.mcpError .invalidRequest "Unsupported resource URI: foo://bar/baz"), []) :=
  c6_amended_unsupported_uri "foo://bar/baz" ⟨"foo:", "/baz"⟩ stubGwOk rfl
    (Or.inl (by decide))

/-- C7: a call-tool request whose tool name is not one of the seven
recognized names fails with MethodNotFound naming the tool, and no
gateway call is made. -/
theorem c7_unknown_tool (gw : Gateway) (name : String) (args : Option ArgBag)
    (h : name ∉ (["get_domains", "check_domain_availability", "get_domain_info",
        "register_domain", "get_dns_records", "get_contact",
        "get_async_operation"] : List String)) :
    callTool gw name args
      = (.error (.mcpError .methodNotFound ("Unknown tool: " ++ name)), []) := by
  simp only [List.mem_cons, List.not_mem_nil, or_false] at h
  push_neg at h
  obtain ⟨h1, h2, h3, h4, h5, h6, h7⟩ := h
  unfold callTool
  rw [if_neg h1, if_neg h2, if_neg h3, if_neg h4, if_neg h5, if_neg h6, if_neg h7]

/-- C7 witness at a concrete unknown tool name. -/
theorem c7_unknown_tool_witness :
    callTool stubGwOk "delete_domain" none
      = (.error (.mcpError .methodNotFound "Unknown tool: delete_domain"), []) :=
  c7_unknown_tool stubGwOk "delete_domain" none (by decide)

/-- C8: the list-tools catalog is exactly seven descriptors in the fixed
order, with unique names, get_domains carrying optional number properties
take and skip and no required list, and each remaining tool requiring
exactly its string arguments. -/
theorem c8_tool_catalog_shape :
    listTools.map ToolDescriptor.name
      = ["get_domains", "check_domain_availability", "get_domain_info", "register_domain",
         "get_dns_records", "get_contact", "get_async_operation"]
    ∧ (listTools.map ToolDescriptor.name).Nodup
    ∧ listTools.map (fun td => ((td.inputSchema.properties.map fun p => (p.name, p.type)),
        td.inputSchema.required))
      = [([("take", "number"), ("skip", "number")], []),
         ([("domain", "string")], ["domain"]),
         ([("domain", "string")], ["domain"]),
         ([("domain", "string"), ("contactId", "string")], ["domain", "contactId"]),
         ([("domain", "string")], ["domain"]),
         ([("contactId", "string")], ["contactId"]),
         ([("operationId", "string")], ["operationId"])] :=
  ⟨rfl, by decide, rfl⟩

/-- C9: the get_domains tool performs no argument validation: for every
argument bag (absent, non-numeric, negative, ...) dispatch invokes
listDomains exactly once, substituting 10 for take and 0 for skip
whenever the supplied value is absent or coerces to NaN or 0, and — as
long as the gateway itself never fails with InvalidParams — the dispatch
result is never an InvalidParams-class error. -/
theorem c9_get_domains_always_dispatches (gw : Gateway) (args : Option ArgBag)
    (hgw : ∀ c msg, gw c ≠ .error (.mcpError .invalidParams msg)) :
    (∃ tk sk, (callTool gw "get_domains" args).2 = [GatewayCall.getDomains tk sk]
      ∧ ((toNumber (argGet args "take") = .nan ∨ toNumber (argGet args "take") = .int 0)
          → tk = .int 10)
      ∧ ((toNumber (argGet args "skip") = .nan ∨ toNumber (argGet args "skip") = .int 0)
          → sk = .int 0))
    ∧ ∀ msg, (callTool gw "get_domains" args).1
        ≠ .error (.mcpError .invalidParams msg) := by
  constructor
  · refine ⟨jsOr (toNumber (argGet args "take")) (.int 10),
      jsOr (toNumber (argGet args "skip")) (.int 0),
      callTool_get_domains_trace gw args, ?_, ?_⟩
    · rintro (hv | hv) <;> rw [hv] <;> rfl
    · rintro (hv | hv) <;> rw [hv] <;> rfl
  · intro msg hcontra
    rw [callTool_get_domains_result] at hcontra
    cases hres : gw (.getDomains (jsOr (toNumber (argGet args "take")) (.int 10))
        (jsOr (toNumber (argGet args "skip")) (.int 0))) with
    | ok j => rw [hres] at hcontra; exact Except.noConfusion hcontra
    | error e =>
        rw [hres] at hcontra
        have : e = .mcpError .invalidParams msg := by
          injection hcontra
        exact hgw _ msg (this ▸ hres)

/-- C9 witness at a concrete non-numeric argument bag. -/
theorem c9_get_domains_always_dispatches_witness :
    (callTool stubGwOk "get_domains" (some [("take", JsValue.null)])).2
        = [GatewayCall.getDomains (.int 10) (.int 0)]
    ∧ (callTool stubGwOk "get_domains" (some [("take", JsValue.null)])).1
        ≠ .error (.mcpError .invalidParams "Domain name is required") :=
  ⟨rfl,
   (c9_get_domains_always_dispatches stubGwOk (some [("take", JsValue.null)])
      (fun _ _ hcontra => Except.noConfusion hcontra)).2 "Domain name is required"⟩

/-- C10: for every URI spaceship://(authority)/domains/(name) with a
non-empty opaque authority, the read-resource handler ignores the
authority entirely: it calls getDomainInfo with exactly (name), and on
gateway success returns the single JSON content block for the domain, so
the authority affects neither which domain is fetched nor whether the
request is accepted. -/
theorem c10_authority_ignored (gw : Gateway) (host name : String)
    (_hh0 : host ≠ "") (hh : ∀ c ∈ host.data, badHostChar c = false)
    (hn0 : name ≠ "") (hn : ∀ c ∈ name.data, badHostChar c = false) :
    (readResource gw ("spaceship://" ++ host ++ "/domains/" ++ name)).2
        = [GatewayCall.getDomainInfo name]
    ∧ ∀ j, gw (.getDomainInfo name) = .ok j →
        (readResource gw ("spaceship://" ++ host ++ "/domains/" ++ name)).1
          = .ok [⟨"spaceship://" ++ host ++ "/domains/" ++ name, "application/json",
                  jsonStringify "" j⟩] := by
  have h0 : name.data ≠ [] := by
    intro hd
    exact hn0 (String.ext (hd.trans rfl))
  have h1 : '/' ∉ name.data := by
    intro hmem
    have := hn '/' hmem
    simp [badHostChar] at this
  have hparse := parseURL_spaceship_host host name hh hn
  have hsplit := splitPath_domains name h0 h1
  constructor
  · cases hres : gw (.getDomainInfo name) <;>
      simp [readResource, hparse, hsplit, hres]
  · intro j hj
    simp [readResource, hparse, hsplit, hj]

/-- C10 witness at a concrete authority, domain and gateway. -/
theorem c10_authority_ignored_witness :
    (readResource gwExample ("spaceship://" ++ "ignored" ++ "/domains/" ++ "example.com")).2
        = [GatewayCall.getDomainInfo "example.com"]
    ∧ (readResource gwExample ("spaceship://" ++ "ignored" ++ "/domains/" ++ "example.com")).1
        = .ok [⟨"spaceship://" ++ "ignored" ++ "/domains/" ++ "example.com",
                "application/json", jsonStringify "" exampleDomainJson⟩] := by
  have h := c10_authority_ignored gwExample "ignored" "example.com"
    (by decide) (by decide) (by decide) (by decide)
  exact ⟨h.1, h.2 exampleDomainJson rfl⟩

end SpaceshipMCP
